import Mathlib

/-!
# Verification of the smart-vote-system verification-and-commit pipeline

A shallow embedding of the correctness-sensitive core of the repository:

* `auth.py`   — failed-attempt lockout policy (`can_attempt_face_verification`,
  `record_failed_face_attempt`, `reset_failed_face_attempts`);
* `face_utils.py` — template codec (`embedding_to_blob`, `blob_to_embedding`),
  similarity verifier (`verify_face`), liveness screen
  (`perform_basic_liveness_check`), optional spoof classifier
  (`deepface_liveness_check`);
* `admin.py` / `db.py` — vote ledger (`record_vote`, `has_user_voted`, the
  `uq_vote_per_voter_per_election` unique constraint on the `votes` table);
* `app.py`   — the orchestrator `process_vote_submission`.

Python floats are modelled as real numbers; `datetime` values as natural
numbers counting seconds; raised exceptions as `Except.error` values; the
SQL table of votes as a list of rows, with the uniqueness constraint
checked on insert by the persistence model.
-/

namespace SmartVote

/-! ## Time and configuration constants (auth.py, app.py) -/

/-- `FAILED_FACE_LIMIT = 5` (auth.py line 9). -/
def FAILED_FACE_LIMIT : ℕ := 5

/-- `FAILED_FACE_COOLDOWN_MIN = 5` (auth.py line 10). -/
def FAILED_FACE_COOLDOWN_MIN : ℕ := 5

/-- The cooldown `timedelta(minutes=FAILED_FACE_COOLDOWN_MIN)` measured in
seconds, time being modelled as seconds since the epoch. -/
def COOLDOWN_SECONDS : ℕ := FAILED_FACE_COOLDOWN_MIN * 60

/-! ## Template blobs (face_utils.py, persistence layer)

A `users.face_embedding` column holds either SQL NULL (`none`), the empty
byte string, or the `pickle.dumps` serialisation of a float32 vector.
`pickle.dumps` of an array is never the empty byte string, and
`pickle.loads (pickle.dumps v) = v`, so the byte strings that can reach
`blob_to_embedding` are modelled by the two constructors below. -/

/-- Model of the byte strings stored in a template column: the empty byte
string (falsy in Python) or a pickled vector with entries in `α`. -/
inductive Blob (α : Type) where
  | empty : Blob α
  | pickled : List α → Blob α

/-- Python truthiness of an optional bytes value: `None` and `b""` are
falsy, any pickled payload is truthy. -/
def truthyBlob {α : Type} : Option (Blob α) → Bool
  | none => false
  | some .empty => false
  | some (.pickled _) => true

/-! ## Voter record (db.py `User`, the fields the core touches) -/

/-- The slice of the `users` row the verification core reads and writes:
`face_embedding` (nullable blob), `failed_face_attempts` (nullable integer),
`last_failed_face_at` (nullable datetime, modelled in seconds). -/
structure UserRec where
  face_embedding : Option (Blob ℝ)
  failed_face_attempts : Option ℕ
  last_failed_face_at : Option ℕ

/-- `record_failed_face_attempt` (auth.py lines 77–81):
`user.failed_face_attempts = (user.failed_face_attempts or 0) + 1` and
`user.last_failed_face_at = datetime.utcnow()`, then commit. -/
def record_failed_face_attempt (now : ℕ) (u : UserRec) : UserRec :=
  { u with
    failed_face_attempts := some (u.failed_face_attempts.getD 0 + 1)
    last_failed_face_at := some now }

/-- `reset_failed_face_attempts` (auth.py lines 84–88): counter to 0,
timestamp to NULL. -/
def reset_failed_face_attempts (u : UserRec) : UserRec :=
  { u with failed_face_attempts := some 0, last_failed_face_at := none }

/-- `can_attempt_face_verification` (auth.py lines 91–98):
`attempts = user.failed_face_attempts or 0`; permit if `attempts < limit`;
otherwise permit if `last_failed_face_at` is NULL; otherwise permit iff
`utcnow() >= last_failed_face_at + timedelta(minutes=5)`. -/
def can_attempt_face_verification (now : ℕ) (u : UserRec) : Bool :=
  let attempts := u.failed_face_attempts.getD 0
  if attempts < FAILED_FACE_LIMIT then true
  else
    match u.last_failed_face_at with
    | none => true
    | some t => decide (now ≥ t + COOLDOWN_SECONDS)

/-! ## Template codec and similarity verifier (face_utils.py) -/

/-- Sum of squared entries of a vector. -/
def l2normSq (v : List ℝ) : ℝ := (v.map (fun x => x ^ 2)).sum

/-- `np.linalg.norm` of a vector: the square root of the sum of squares. -/
noncomputable def l2norm (v : List ℝ) : ℝ := Real.sqrt (l2normSq v)

/-- `normalize_embedding` (face_utils.py lines 52–54): return the vector
unchanged when its norm is 0, otherwise divide each entry by the norm. -/
noncomputable def normalize_embedding (v : List ℝ) : List ℝ :=
  if l2norm v = 0 then v else v.map (fun x => x / l2norm v)

/-- Entrywise subtraction `reg - live` of two equal-length vectors. -/
def subv (a b : List ℝ) : List ℝ := List.zipWith (· - ·) a b

/-- `np.linalg.norm(reg - live)`: the Euclidean distance. -/
noncomputable def distE (a b : List ℝ) : ℝ := l2norm (subv a b)

/-- `embedding_to_blob` (face_utils.py lines 90–91):
`None if embedding is None else pickle.dumps(embedding.astype(np.float32))`.
Pickling stores the entries verbatim; there is no validation of any kind on
the values. Stated generically over the entry type so it can be read both at
real entries and at the float model with non-finite values. -/
def embedding_to_blob {α : Type} (embedding : Option (List α)) : Option (Blob α) :=
  embedding.map Blob.pickled

/-- `blob_to_embedding` (face_utils.py lines 94–98): `None` on a falsy blob
(NULL or the empty byte string); otherwise unpickle and return
`normalize_embedding` of the stored vector. -/
noncomputable def blob_to_embedding (blob : Option (Blob ℝ)) : Option (List ℝ) :=
  match blob with
  | none => none
  | some .empty => none
  | some (.pickled emb) => some (normalize_embedding emb)

/-- `verify_face` (face_utils.py lines 104–116): `(False, inf)` when either
embedding is `None`; otherwise defensively normalize both, compute the
Euclidean distance, and match iff `distance <= threshold`. The returned
distance lives in `ENNReal` so that `float("inf")` is `⊤`. -/
noncomputable def verify_face (registered_embedding live_embedding : Option (List ℝ))
    (threshold : ℝ) : Bool × ENNReal :=
  match registered_embedding, live_embedding with
  | none, _ => (false, ⊤)
  | _, none => (false, ⊤)
  | some r, some l =>
    let reg := normalize_embedding r
    let live := normalize_embedding l
    let distance := distE reg live
    (decide (distance ≤ threshold), ENNReal.ofReal distance)

/-- The IEEE-754 single-precision values a template entry can hold, as far
as finiteness is concerned: a finite value (modelled by a real), a signed
infinity, or NaN. -/
inductive F32 where
  | finite : ℝ → F32
  | posInf : F32
  | negInf : F32
  | nan : F32

/-- Finiteness of a float value. -/
def F32.isFinite : F32 → Bool
  | .finite _ => true
  | _ => false

/-! ## Vote ledger (db.py `Vote`, admin.py) -/

/-- A row of the `votes` table (db.py lines 79–94): voter id, election id,
candidate id. The table carries
`UniqueConstraint("voter_id", "election_id", name="uq_vote_per_voter_per_election")`. -/
structure VoteRow where
  voter_id : ℕ
  election_id : ℕ
  candidate_id : ℕ
deriving DecidableEq

/-- `has_user_voted` (admin.py lines 51–57): whether some row of the
`votes` table matches the (voter, election) pair. -/
def has_user_voted (votes : List VoteRow) (voter_id election_id : ℕ) : Bool :=
  votes.any fun w => w.voter_id == voter_id && w.election_id == election_id

/-- The error SQLAlchemy raises when a flush violates
`uq_vote_per_voter_per_election`. -/
inductive DBError where
  | integrityError : DBError
deriving DecidableEq

/-- The persistence layer's insert of a `votes` row: the unique constraint
on (voter_id, election_id) makes the commit raise `IntegrityError` when a
row for the pair already exists; otherwise the row is appended. -/
def insert_vote (votes : List VoteRow) (row : VoteRow) : Except DBError (List VoteRow) :=
  if votes.any fun w =>
      w.voter_id == row.voter_id && w.election_id == row.election_id then
    .error .integrityError
  else
    .ok (votes ++ [row])

/-- The exceptions `record_vote` lets escape to its caller. -/
inductive RecordVoteError where
  /-- `ValueError("User has already voted in this election.")`
  (admin.py line 68). -/
  | valueError : RecordVoteError
  /-- The `IntegrityError` from a commit that violates the unique
  constraint, re-raised by `session_scope` / left uncaught by
  `record_vote`. -/
  | integrityError : RecordVoteError
deriving DecidableEq

/-- The insert-and-commit phase of `record_vote` given the result `checked`
of its earlier `has_user_voted` call: raise `ValueError` if the check saw an
existing vote, otherwise insert; a constraint violation on commit surfaces
as an uncaught `IntegrityError` and the session rolls back (db.py
`session_scope`), leaving the table unchanged. -/
def commit_phase (votes : List VoteRow) (checked : Bool)
    (voter_id election_id candidate_id : ℕ) :
    Except RecordVoteError Unit × List VoteRow :=
  if checked then
    (.error .valueError, votes)
  else
    match insert_vote votes ⟨voter_id, election_id, candidate_id⟩ with
    | .error _ => (.error .integrityError, votes)
    | .ok votes' => (.ok (), votes')

/-- `record_vote` (admin.py lines 60–73): an application-level
check-then-insert — `has_user_voted` first, raising `ValueError` when it
reports an existing vote, then `session.add` + `session.commit` of the new
row. Returns the raised exception (if any) together with the table
contents after the call. -/
def record_vote (votes : List VoteRow) (voter_id election_id candidate_id : ℕ) :
    Except RecordVoteError Unit × List VoteRow :=
  commit_phase votes (has_user_voted votes voter_id election_id)
    voter_id election_id candidate_id

/-- Two concurrent `record_vote` calls for the same (voter, election) pair
under the racy schedule: both sessions run `has_user_voted` against the
initial table, then the first commits its phase, then the second. Returns
the two callers' results and the final table. -/
def record_vote_interleaved (votes : List VoteRow)
    (voter_id election_id c1 c2 : ℕ) :
    Except RecordVoteError Unit × Except RecordVoteError Unit × List VoteRow :=
  let aCheck := has_user_voted votes voter_id election_id
  let bCheck := has_user_voted votes voter_id election_id
  let a := commit_phase votes aCheck voter_id election_id c1
  let b := commit_phase a.2 bCheck voter_id election_id c2
  (a.1, b.1, b.2)

/-- At most one `votes` row per (voter, election) pair. -/
def UniqueVotes (votes : List VoteRow) : Prop :=
  votes.Pairwise fun a b =>
    ¬(a.voter_id = b.voter_id ∧ a.election_id = b.election_id)

/-! ## Orchestrator (app.py `process_vote_submission`) -/

/-- `LIVENESS_VARIANCE_THRESHOLD = 6.0` (app.py line 42), the threshold
`process_vote_submission` passes to `perform_basic_liveness_check`. -/
def LIVENESS_VARIANCE_THRESHOLD : ℝ := 6

/-- The external image-processing collaborators, abstracted over the type
`Img` of raw image bytes: `variance` is the Laplacian variance that
cv2 computes inside `perform_basic_liveness_check` (face_utils.py lines
127–129), and `embed` is `generate_face_embedding` (DeepFace extraction
plus normalization, face_utils.py lines 60–84), `none` when no face is
found. -/
structure Vision (Img : Type) where
  variance : Img → ℝ
  embed : Img → Option (List ℝ)

/-- `perform_basic_liveness_check` (face_utils.py lines 122–130): compute
the Laplacian variance of the grayscale image and return
`(variance >= var_threshold, variance)`. -/
noncomputable def perform_basic_liveness_check {Img : Type} (V : Vision Img)
    (image_bytes : Img) (var_threshold : ℝ) : Bool × ℝ :=
  let variance := V.variance image_bytes
  (decide (variance ≥ var_threshold), variance)

/-- `deepface_liveness_check` (face_utils.py lines 137–138): a constant
pass-through that ignores its input. -/
def deepface_liveness_check {Img : Type} (_ : Img) : Bool × String :=
  (true, "DeepFace anti-spoof disabled (using basic liveness).")

/-- The terminal outcomes of one call to `process_vote_submission`, one per
`st.error` / `st.warning` / `st.success` exit path. -/
inductive Outcome where
  /-- "Live capture required for face verification." -/
  | missingCapture : Outcome
  /-- "Face enrollment missing. Contact administrator." -/
  | missingEnrollment : Outcome
  /-- "Too many failed attempts. Please try again later." -/
  | locked : Outcome
  /-- "Liveness verification failed ..." -/
  | livenessFailed : Outcome
  /-- "DeepFace anti-spoofing failed ..." -/
  | spoofDetected : Outcome
  /-- "Could not detect face in live capture. Please try again." -/
  | noFaceDetected : Outcome
  /-- "Face mismatch detected ..." -/
  | faceMismatch : Outcome
  /-- "You have already voted in this election." -/
  | alreadyVoted : Outcome
  /-- "Vote recorded successfully with verified face match." -/
  | voteRecorded : Outcome
  /-- An exception escaped `record_vote` inside the final session scope. -/
  | raisedError : Outcome
deriving DecidableEq

/-- The pipeline stages an attempt actually executes, in order. -/
inductive Step where
  | lockoutCheck : Step
  | liveness : Step
  | spoofCheck : Step
  | extract : Step
  | similarity : Step
  | commit : Step
deriving DecidableEq

/-- The shared persisted state an attempt reads and writes: the voter's
`users` row and the `votes` table. -/
structure SysState where
  user : UserRec
  votes : List VoteRow

/-- `process_vote_submission` (app.py lines 336–406), transcribed branch
for branch, together with the trace of pipeline stages executed:
require a live capture; require a truthy enrolled `face_embedding`;
refuse when `can_attempt_face_verification` is false; run
`perform_basic_liveness_check` at `LIVENESS_VARIANCE_THRESHOLD`, recording
a failed attempt on failure; optionally run `deepface_liveness_check`,
recording a failed attempt on failure; extract the live embedding
(`generate_face_embedding`, abstracted as `V.embed`); run `verify_face`
at the default threshold 0.8, recording a failed attempt on mismatch;
finally re-check `has_user_voted`, and otherwise `record_vote` and
`reset_failed_face_attempts`. -/
noncomputable def process_vote_submission {Img : Type} (V : Vision Img) (now : ℕ)
    (s : SysState) (voter_id election_id candidate_id : ℕ)
    (live_capture : Option Img) (enable_antispoof : Bool) :
    Outcome × SysState × List Step :=
  match live_capture with
  | none => (.missingCapture, s, [])
  | some live_bytes =>
    if truthyBlob s.user.face_embedding = false then
      (.missingEnrollment, s, [])
    else if can_attempt_face_verification now s.user = false then
      (.locked, s, [.lockoutCheck])
    else
      let registered_embedding := blob_to_embedding s.user.face_embedding
      let lv := perform_basic_liveness_check V live_bytes LIVENESS_VARIANCE_THRESHOLD
      if lv.1 = false then
        (.livenessFailed, { s with user := record_failed_face_attempt now s.user },
          [.lockoutCheck, .liveness])
      else
        let trace0 : List Step :=
          [.lockoutCheck, .liveness] ++ if enable_antispoof then [.spoofCheck] else []
        if enable_antispoof && !(deepface_liveness_check live_bytes).1 then
          (.spoofDetected, { s with user := record_failed_face_attempt now s.user },
            trace0)
        else
          match V.embed live_bytes with
          | none => (.noFaceDetected, s, trace0 ++ [.extract])
          | some live_embedding =>
            let vr := verify_face registered_embedding (some live_embedding) 0.8
            if vr.1 = false then
              (.faceMismatch, { s with user := record_failed_face_attempt now s.user },
                trace0 ++ [.extract, .similarity])
            else if has_user_voted s.votes voter_id election_id then
              (.alreadyVoted, s, trace0 ++ [.extract, .similarity, .commit])
            else
              match record_vote s.votes voter_id election_id candidate_id with
              | (.error _, votes') =>
                (.raisedError, { s with votes := votes' },
                  trace0 ++ [.extract, .similarity, .commit])
              | (.ok _, votes') =>
                (.voteRecorded,
                  { user := reset_failed_face_attempts s.user, votes := votes' },
                  trace0 ++ [.extract, .similarity, .commit])

end SmartVote

namespace SmartVote

/-! ## Helper lemmas on concrete templates -/

theorem l2norm_one_zero : l2norm [(1 : ℝ), 0] = 1 := by
  simp [l2norm, l2normSq]

theorem l2norm_zero_one : l2norm [(0 : ℝ), 1] = 1 := by
  simp [l2norm, l2normSq]

theorem l2norm_two_zero : l2norm [(2 : ℝ), 0] = 2 := by
  have h : l2normSq [(2 : ℝ), 0] = 2 ^ 2 := by norm_num [l2normSq]
  rw [l2norm, h, Real.sqrt_sq (by norm_num : (0 : ℝ) ≤ 2)]

theorem normalize_embedding_of_norm_one (v : List ℝ) (h : l2norm v = 1) :
    normalize_embedding v = v := by
  simp [normalize_embedding, h]

theorem distE_e1_e2 : distE [(1 : ℝ), 0] [(0 : ℝ), 1] = Real.sqrt 2 := by
  have h : l2normSq (subv [(1 : ℝ), 0] [(0 : ℝ), 1]) = 2 := by
    norm_num [l2normSq, subv]
  rw [distE, l2norm, h]

/-! ## Claims C2 and C10: the lockout state machine -/

/-- **C2.** After `FAILED_FACE_LIMIT` (= 5) consecutive
`record_failed_face_attempt` calls with no intervening reset, starting from
any voter state, `can_attempt_face_verification` returns `false` at every
time strictly before the last failure time plus the cooldown (5 minutes),
returns `true` at every time at or after that bound, and the failure
counter is still at least the limit. -/
theorem lockout_after_limit_failures (u : UserRec) (t1 t2 t3 t4 t5 : ℕ) :
    (∀ t, t < t5 + COOLDOWN_SECONDS →
      can_attempt_face_verification t
        (record_failed_face_attempt t5 (record_failed_face_attempt t4
          (record_failed_face_attempt t3 (record_failed_face_attempt t2
            (record_failed_face_attempt t1 u))))) = false) ∧
    (∀ t, t5 + COOLDOWN_SECONDS ≤ t →
      can_attempt_face_verification t
        (record_failed_face_attempt t5 (record_failed_face_attempt t4
          (record_failed_face_attempt t3 (record_failed_face_attempt t2
            (record_failed_face_attempt t1 u))))) = true) ∧
    FAILED_FACE_LIMIT ≤
      (record_failed_face_attempt t5 (record_failed_face_attempt t4
        (record_failed_face_attempt t3 (record_failed_face_attempt t2
          (record_failed_face_attempt t1 u))))).failed_face_attempts.getD 0 := by
  refine ⟨fun t ht => ?_, fun t ht => ?_, ?_⟩
  · simp only [can_attempt_face_verification, record_failed_face_attempt,
      Option.getD_some, FAILED_FACE_LIMIT]
    have hlim : ¬ (u.failed_face_attempts.getD 0 + 1 + 1 + 1 + 1 + 1 < 5) := by omega
    simp only [hlim, if_false]
    simpa using by omega
  · simp only [can_attempt_face_verification, record_failed_face_attempt,
      Option.getD_some, FAILED_FACE_LIMIT]
    have hlim : ¬ (u.failed_face_attempts.getD 0 + 1 + 1 + 1 + 1 + 1 < 5) := by omega
    simp only [hlim, if_false]
    simpa using ht
  · simp [record_failed_face_attempt, FAILED_FACE_LIMIT]

/-- Witness for C2: from the blank voter state with all five failures at
time 0, attempts are refused at time 299 and permitted at time 300, with
the counter at 5. -/
theorem lockout_after_limit_failures_witness :
    can_attempt_face_verification 299
      (record_failed_face_attempt 0 (record_failed_face_attempt 0
        (record_failed_face_attempt 0 (record_failed_face_attempt 0
          (record_failed_face_attempt 0 ⟨none, none, none⟩))))) = false ∧
    can_attempt_face_verification 300
      (record_failed_face_attempt 0 (record_failed_face_attempt 0
        (record_failed_face_attempt 0 (record_failed_face_attempt 0
          (record_failed_face_attempt 0 ⟨none, none, none⟩))))) = true ∧
    FAILED_FACE_LIMIT ≤
      (record_failed_face_attempt 0 (record_failed_face_attempt 0
        (record_failed_face_attempt 0 (record_failed_face_attempt 0
          (record_failed_face_attempt 0
            (⟨none, none, none⟩ : UserRec)))))).failed_face_attempts.getD 0 := by
  obtain ⟨h1, h2, h3⟩ :=
    lockout_after_limit_failures ⟨none, none, none⟩ 0 0 0 0 0
  exact ⟨h1 299 (by decide), h2 300 (by decide), h3⟩

/-- **C10.** Whenever the failure counter is at or above the limit but the
last-failure timestamp is NULL, `can_attempt_face_verification` returns
`true` regardless of the counter value and of the current time. -/
theorem can_attempt_true_of_no_timestamp (now : ℕ) (u : UserRec)
    (hc : FAILED_FACE_LIMIT ≤ u.failed_face_attempts.getD 0)
    (hl : u.last_failed_face_at = none) :
    can_attempt_face_verification now u = true := by
  simp only [can_attempt_face_verification, hl, FAILED_FACE_LIMIT] at *
  have : ¬ (u.failed_face_attempts.getD 0 < 5) := by omega
  simp [this]

/-- Witness for C10: a voter with counter 7 and no timestamp may attempt at
time 0. -/
theorem can_attempt_true_of_no_timestamp_witness :
    can_attempt_face_verification 0 ⟨none, some 7, none⟩ = true :=
  can_attempt_true_of_no_timestamp 0 ⟨none, some 7, none⟩ (by decide) rfl

/-! ## Claims C3 and C4: the similarity verifier -/

/-- **C3.** For every template `x` and every threshold `t`,
`verify_face none x t` and `verify_face x none t` both return exactly
`(false, +∞)`; being total functions of the embedding, they raise no
exception. -/
theorem verify_face_absent_fails_closed (x : Option (List ℝ)) (t : ℝ) :
    verify_face none x t = (false, ⊤) ∧ verify_face x none t = (false, ⊤) := by
  cases x <;> exact ⟨rfl, rfl⟩

/-- **C4.** For present templates `a`, `b` and a threshold `d`,
`verify_face` matches exactly when the Euclidean distance between the
defensively normalized templates is `≤ d`; in particular distance `= d`
yields a match and distance `= d + ε` with `ε > 0` yields no match. -/
theorem verify_face_threshold_boundary (a b : List ℝ) (d : ℝ) :
    ((verify_face (some a) (some b) d).1 = true ↔
      distE (normalize_embedding a) (normalize_embedding b) ≤ d) ∧
    (distE (normalize_embedding a) (normalize_embedding b) = d →
      (verify_face (some a) (some b) d).1 = true) ∧
    (∀ ε : ℝ, 0 < ε →
      distE (normalize_embedding a) (normalize_embedding b) = d + ε →
      (verify_face (some a) (some b) d).1 = false) := by
  have hfst : (verify_face (some a) (some b) d).1
      = decide (distE (normalize_embedding a) (normalize_embedding b) ≤ d) := rfl
  refine ⟨?_, fun h => ?_, fun ε hε h => ?_⟩
  · rw [hfst]; exact decide_eq_true_iff
  · rw [hfst, h]; simp
  · rw [hfst, h]
    simp only [decide_eq_false_iff_not]
    intro hle
    linarith

/-- Witness for C4: with `a = [1,0]`, `b = [0,1]` (both unit length), the
distance is `√2`; at threshold `√2` the verifier matches, and at
threshold `0` (distance `0 + √2`, `√2 > 0`) it does not. -/
theorem verify_face_threshold_boundary_witness :
    distE (normalize_embedding [(1 : ℝ), 0]) (normalize_embedding [(0 : ℝ), 1])
      = Real.sqrt 2 ∧
    (verify_face (some [(1 : ℝ), 0]) (some [(0 : ℝ), 1]) (Real.sqrt 2)).1 = true ∧
    (0 : ℝ) < Real.sqrt 2 ∧
    (verify_face (some [(1 : ℝ), 0]) (some [(0 : ℝ), 1]) 0).1 = false := by
  have hd : distE (normalize_embedding [(1 : ℝ), 0]) (normalize_embedding [(0 : ℝ), 1])
      = Real.sqrt 2 := by
    rw [normalize_embedding_of_norm_one _ l2norm_one_zero,
      normalize_embedding_of_norm_one _ l2norm_zero_one, distE_e1_e2]
  have hpos : (0 : ℝ) < Real.sqrt 2 := Real.sqrt_pos.mpr (by norm_num)
  refine ⟨hd,
    (verify_face_threshold_boundary [(1 : ℝ), 0] [(0 : ℝ), 1] (Real.sqrt 2)).2.1 hd,
    hpos,
    (verify_face_threshold_boundary [(1 : ℝ), 0] [(0 : ℝ), 1] 0).2.2
      (Real.sqrt 2) hpos ?_⟩
  rw [hd, zero_add]

/-! ## Claims C7 and C8: the template codec -/

/-- **C7, counterexample.** `decode(encode(t))` does not equal `t` for the
finite-valued template `t = [2, 0]`: `blob_to_embedding` normalizes the
stored vector, so the round trip yields `[1, 0]`. -/
theorem codec_roundtrip_counterexample :
    blob_to_embedding (embedding_to_blob (some [(2 : ℝ), 0])) ≠ some [(2 : ℝ), 0] := by
  have h : blob_to_embedding (embedding_to_blob (some [(2 : ℝ), 0]))
      = some (normalize_embedding [(2 : ℝ), 0]) := rfl
  have hn : normalize_embedding [(2 : ℝ), 0] = [(1 : ℝ), 0] := by
    simp [normalize_embedding, l2norm_two_zero]
  rw [h, hn]
  intro hcontra
  have : (1 : ℝ) = 2 := by
    simpa using congrArg (fun o => (o.getD []).headI) hcontra
  norm_num at this

/-- **C7, amended.** `decode(encode(t)) = normalize(t)` for every
finite-valued template `t`; it equals `t` exactly when `t` is already in
normalized (stored) form, and `decode` of absent or empty bytes returns
absent rather than an error. -/
theorem codec_roundtrip_normalized (t : List ℝ) :
    blob_to_embedding (embedding_to_blob (some t)) = some (normalize_embedding t) ∧
    (normalize_embedding t = t →
      blob_to_embedding (embedding_to_blob (some t)) = some t) ∧
    blob_to_embedding (embedding_to_blob (none : Option (List ℝ))) = none ∧
    blob_to_embedding (some Blob.empty) = none ∧
    blob_to_embedding none = none := by
  refine ⟨rfl, fun h => ?_, rfl, rfl, rfl⟩
  show some (normalize_embedding t) = some t
  rw [h]

/-- Witness for C7 (amended): the unit template `[1, 0]` is in normalized
form and round-trips exactly. -/
theorem codec_roundtrip_normalized_witness :
    normalize_embedding [(1 : ℝ), 0] = [(1 : ℝ), 0] ∧
    blob_to_embedding (embedding_to_blob (some [(1 : ℝ), 0])) = some [(1 : ℝ), 0] := by
  have h : normalize_embedding [(1 : ℝ), 0] = [(1 : ℝ), 0] :=
    normalize_embedding_of_norm_one _ l2norm_one_zero
  exact ⟨h, (codec_roundtrip_normalized [(1 : ℝ), 0]).2.1 h⟩

/-- **C8, counterexample.** `encode` does not reject non-finite input: on
the template `[NaN]` (whose single entry is non-finite) it succeeds,
silently pickling the NaN verbatim instead of raising `InvalidTemplate`. -/
theorem embedding_to_blob_nan_counterexample :
    F32.isFinite F32.nan = false ∧
    embedding_to_blob (some [F32.nan]) = some (Blob.pickled [F32.nan]) :=
  ⟨rfl, rfl⟩

/-- **C8, amended.** `embedding_to_blob` performs no validation at all: for
every template — finite-valued or containing NaN or infinities — it
succeeds and stores the entries verbatim; no `InvalidTemplate` error path
exists (only the `None` input maps to `None`). -/
theorem embedding_to_blob_never_rejects (v : List F32) :
    embedding_to_blob (some v) = some (Blob.pickled v) ∧
    embedding_to_blob (none : Option (List F32)) = none :=
  ⟨rfl, rfl⟩

/-! ## Claim C1: the vote ledger -/

theorem insert_vote_eq (votes : List VoteRow) (v e c : ℕ) :
    insert_vote votes ⟨v, e, c⟩ =
      if has_user_voted votes v e then .error .integrityError
      else .ok (votes ++ [⟨v, e, c⟩]) := rfl

theorem commit_phase_false (votes : List VoteRow) (v e c : ℕ) :
    commit_phase votes false v e c =
      if has_user_voted votes v e then (.error .integrityError, votes)
      else (.ok (), votes ++ [⟨v, e, c⟩]) := by
  cases h : has_user_voted votes v e <;>
    simp [commit_phase, insert_vote_eq, h]

theorem record_vote_eq (votes : List VoteRow) (v e c : ℕ) :
    record_vote votes v e c =
      if has_user_voted votes v e then (.error .valueError, votes)
      else (.ok (), votes ++ [⟨v, e, c⟩]) := by
  cases h : has_user_voted votes v e
  · simp [record_vote, commit_phase_false, h]
  · simp [record_vote, commit_phase, h]

theorem has_user_voted_append_self (votes : List VoteRow) (v e c : ℕ) :
    has_user_voted (votes ++ [⟨v, e, c⟩]) v e = true := by
  simp [has_user_voted]

theorem uniqueVotes_append (votes : List VoteRow) (v e c : ℕ)
    (hu : UniqueVotes votes) (h : has_user_voted votes v e = false) :
    UniqueVotes (votes ++ [⟨v, e, c⟩]) := by
  simp only [has_user_voted, List.any_eq_false, Bool.and_eq_true, beq_iff_eq,
    not_and] at h
  unfold UniqueVotes
  rw [List.pairwise_append]
  refine ⟨hu, List.pairwise_singleton _ _, ?_⟩
  intro a ha b hb
  simp only [List.mem_singleton] at hb
  subst hb
  intro hcontra
  exact h a ha hcontra.1 hcontra.2

/-- **C1, counterexample.** The duplicate case is raised to the caller, not
translated: with a vote for (voter 1, election 1) already recorded,
`record_vote` raises `ValueError` (there is no `AlreadyVoted` result in its
interface), and under the concurrent check-then-insert interleaving on an
empty table the second committer's uniqueness-constraint violation escapes
as an uncaught `IntegrityError`. -/
theorem record_vote_duplicate_raises :
    (record_vote [⟨1, 1, 1⟩] 1 1 2).1 = .error .valueError ∧
    (record_vote_interleaved [] 1 1 1 2).2.1 = .error .integrityError :=
  ⟨rfl, rfl⟩

/-- **C1, amended.** For every (voter, election) pair at most one Vote
Record ever exists — the persistence-layer uniqueness constraint keeps the
table duplicate-free even under the racy interleaving of two concurrent
check-then-insert commits — and the losing caller modifies no record; but
the duplicate case is not translated to an `AlreadyVoted` outcome:
`record_vote` raises `ValueError` when a vote for the pair already exists,
and the constraint violation of the racing commit is raised uncaught as
`IntegrityError`. -/
theorem vote_ledger_at_most_once (votes : List VoteRow) (voter election c1 : ℕ)
    (hu : UniqueVotes votes) :
    (has_user_voted votes voter election = true →
      record_vote votes voter election c1 = (.error .valueError, votes)) ∧
    (has_user_voted votes voter election = false →
      record_vote votes voter election c1 =
        (.ok (), votes ++ [⟨voter, election, c1⟩])) ∧
    UniqueVotes (record_vote votes voter election c1).2 ∧
    (∀ c2, has_user_voted votes voter election = false →
      record_vote_interleaved votes voter election c1 c2 =
        (.ok (), .error .integrityError, votes ++ [⟨voter, election, c1⟩]) ∧
      UniqueVotes (record_vote_interleaved votes voter election c1 c2).2.2) := by
  refine ⟨fun h => ?_, fun h => ?_, ?_, fun c2 h => ?_⟩
  · rw [record_vote_eq, if_pos h]
  · rw [record_vote_eq]
    simp [h]
  · rcases h : has_user_voted votes voter election with _ | _
    · rw [record_vote_eq]
      simp only [h, Bool.false_eq_true, if_false]
      exact uniqueVotes_append votes voter election c1 hu h
    · rw [record_vote_eq, if_pos h]
      exact hu
  · have hA : commit_phase votes false voter election c1
        = (.ok (), votes ++ [⟨voter, election, c1⟩]) := by
      rw [commit_phase_false]
      simp [h]
    have hB : commit_phase (votes ++ [⟨voter, election, c1⟩]) false
        voter election c2
        = (.error .integrityError, votes ++ [⟨voter, election, c1⟩]) := by
      rw [commit_phase_false, if_pos (has_user_voted_append_self votes voter election c1)]
    have hrec : record_vote_interleaved votes voter election c1 c2
        = (.ok (), .error .integrityError, votes ++ [⟨voter, election, c1⟩]) := by
      simp only [record_vote_interleaved, h, hA, hB]
    refine ⟨hrec, ?_⟩
    rw [hrec]
    exact uniqueVotes_append votes voter election c1 hu h

/-- Witness for C1 (amended): on the one-row table the duplicate call
raises `ValueError` leaving the table unchanged, and on the empty table the
interleaved pair of commits yields one success, one raised
`IntegrityError`, and a duplicate-free table of exactly one row. -/
theorem vote_ledger_at_most_once_witness :
    UniqueVotes [VoteRow.mk 1 1 1] ∧
    record_vote [VoteRow.mk 1 1 1] 1 1 2 = (.error .valueError, [VoteRow.mk 1 1 1]) ∧
    UniqueVotes ([] : List VoteRow) ∧
    record_vote_interleaved [] 1 1 1 2 = (.ok (), .error .integrityError, [VoteRow.mk 1 1 1]) ∧
    UniqueVotes (record_vote_interleaved [] 1 1 1 2).2.2 := by
  have hdup := (vote_ledger_at_most_once [VoteRow.mk 1 1 1] 1 1 2
    (by simp [UniqueVotes])).1 (by decide)
  have hrace := (vote_ledger_at_most_once [] 1 1 1
    (by simp [UniqueVotes])).2.2.2 2 (by decide)
  exact ⟨by simp [UniqueVotes], hdup, by simp [UniqueVotes], hrace.1, hrace.2⟩

/-! ## Claims C5, C6 and C9: the orchestrator -/

/-- **C6.** An attempt by a voter whose failure counter is at the limit and
whose last failure lies within the cooldown window has
`can_attempt_face_verification` false, terminates with the `locked`
outcome, leaves the whole persisted state (counter and timestamp included)
unchanged, and records no failure: only the lockout check runs. -/
theorem locked_attempt_leaves_state_unchanged {Img : Type} (V : Vision Img)
    (now : ℕ) (s : SysState) (voter_id election_id candidate_id : ℕ)
    (img : Img) (anti : Bool) (blob : List ℝ) (L : ℕ)
    (henroll : s.user.face_embedding = some (.pickled blob))
    (hcount : FAILED_FACE_LIMIT ≤ s.user.failed_face_attempts.getD 0)
    (hlast : s.user.last_failed_face_at = some L)
    (hnow : now < L + COOLDOWN_SECONDS) :
    can_attempt_face_verification now s.user = false ∧
    process_vote_submission V now s voter_id election_id candidate_id
      (some img) anti = (.locked, s, [.lockoutCheck]) := by
  have hnotlt : ¬ (s.user.failed_face_attempts.getD 0 < FAILED_FACE_LIMIT) := by
    omega
  have hcan : can_attempt_face_verification now s.user = false := by
    simp only [can_attempt_face_verification, hlast, hnotlt, if_false,
      decide_eq_false_iff_not]
    omega
  refine ⟨hcan, ?_⟩
  simp [process_vote_submission, henroll, truthyBlob, hcan]

/-- Witness for C6: a voter with counter 5, last failure at time 0,
attempting at time 60 (1 minute) is refused with the `locked` outcome and
an unchanged state. -/
theorem locked_attempt_leaves_state_unchanged_witness :
    can_attempt_face_verification 60
      (⟨some (.pickled [1]), some 5, some 0⟩ : UserRec) = false ∧
    process_vote_submission (⟨fun _ => 100, fun _ => none⟩ : Vision Unit) 60
        ⟨⟨some (.pickled [1]), some 5, some 0⟩, []⟩ 1 1 1 (some ()) false
      = (.locked, ⟨⟨some (.pickled [1]), some 5, some 0⟩, []⟩, [.lockoutCheck]) :=
  locked_attempt_leaves_state_unchanged (⟨fun _ => 100, fun _ => none⟩ : Vision Unit)
    60 ⟨⟨some (.pickled [1]), some 5, some 0⟩, []⟩ 1 1 1 () false [1] 0
    rfl (by decide) rfl (by decide)

/-- **C5.** An attempt that passes the lockout check but whose liveness
variance is below the threshold terminates with the `livenessFailed`
outcome, increments the voter's failure counter by exactly 1, leaves the
vote table untouched, and executes only the lockout and liveness stages —
no feature extraction of the live image and no similarity computation. -/
theorem liveness_failure_increments_once {Img : Type} (V : Vision Img)
    (now : ℕ) (s : SysState) (voter_id election_id candidate_id : ℕ)
    (img : Img) (anti : Bool) (blob : List ℝ)
    (henroll : s.user.face_embedding = some (.pickled blob))
    (hcan : can_attempt_face_verification now s.user = true)
    (hvar : V.variance img < LIVENESS_VARIANCE_THRESHOLD) :
    process_vote_submission V now s voter_id election_id candidate_id
        (some img) anti
      = (.livenessFailed, { s with user := record_failed_face_attempt now s.user },
          [.lockoutCheck, .liveness]) ∧
    (record_failed_face_attempt now s.user).failed_face_attempts.getD 0
      = s.user.failed_face_attempts.getD 0 + 1 ∧
    ({ s with user := record_failed_face_attempt now s.user } : SysState).votes
      = s.votes ∧
    Step.extract ∉ [Step.lockoutCheck, Step.liveness] ∧
    Step.similarity ∉ [Step.lockoutCheck, Step.liveness] := by
  have hlv : (perform_basic_liveness_check V img LIVENESS_VARIANCE_THRESHOLD).1
      = false := by
    simp only [perform_basic_liveness_check, decide_eq_false_iff_not]
    exact not_le.mpr hvar
  refine ⟨?_, by simp [record_failed_face_attempt], rfl, by decide, by decide⟩
  simp [process_vote_submission, henroll, truthyBlob, hcan, hlv]

/-- Witness for C5: a fresh voter (counter 0) with liveness variance 5
against threshold 6 gets `livenessFailed` and counter 1, with only the
lockout and liveness stages executed. -/
theorem liveness_failure_increments_once_witness :
    process_vote_submission (⟨fun _ => 5, fun _ => none⟩ : Vision Unit) 0
        ⟨⟨some (.pickled [1]), none, none⟩, []⟩ 1 1 1 (some ()) false
      = (.livenessFailed,
          ⟨record_failed_face_attempt 0 ⟨some (.pickled [1]), none, none⟩, []⟩,
          [.lockoutCheck, .liveness]) ∧
    (record_failed_face_attempt 0
      (⟨some (.pickled [1]), none, none⟩ : UserRec)).failed_face_attempts.getD 0
      = 1 := by
  have h := liveness_failure_increments_once
    (⟨fun _ => 5, fun _ => none⟩ : Vision Unit) 0
    ⟨⟨some (.pickled [1]), none, none⟩, []⟩ 1 1 1 () false [1]
    rfl (by decide) (by norm_num [LIVENESS_VARIANCE_THRESHOLD])
  exact ⟨h.1, h.2.1⟩

/-- **C9.** The optional secondary spoof classifier is a constant
pass-through, returning `(true, message)` for every input image; as a
consequence the `spoofDetected` terminal outcome is unreachable: no run of
`process_vote_submission`, whatever its inputs and whether or not the
anti-spoofing stage is enabled, produces it. -/
theorem spoof_stage_unreachable {Img : Type} (V : Vision Img) (now : ℕ)
    (s : SysState) (voter_id election_id candidate_id : ℕ)
    (live_capture : Option Img) (anti : Bool) :
    (∀ img : Img, deepface_liveness_check img
      = (true, "DeepFace anti-spoof disabled (using basic liveness).")) ∧
    (process_vote_submission V now s voter_id election_id candidate_id
      live_capture anti).1 ≠ .spoofDetected := by
  refine ⟨fun img => rfl, ?_⟩
  rcases live_capture with _ | img
  · simp [process_vote_submission]
  · simp only [process_vote_submission]
    repeat' split
    all_goals simp_all [deepface_liveness_check]

end SmartVote
